import Mathlib

/-!
Verification development for the serp-api phone-number application.

The file shallow-embeds the algorithmic core of `app.py`:
the radius-to-zoom classifier, the coverage planner
(`generate_search_points`), the per-point paginated dispatch loop with
its merge/deduplication step, the post-hoc radius filter, the
name-based entity resolver (`search_store_by_name`, `score_place`,
`calculate_confidence`, the organic-search fallback), and the CSV-tab
per-row radius post-check.

Modelling conventions:
* Python floats are modelled as exact rationals (`ℚ`); the float
  literals `0.4` and `1.2` become `2/5` and `6/5`.
* A Python dict field that may be missing or `None` is an `Option`.
* Python truthiness is made explicit: `truthyS` (missing or empty
  string is falsy), `truthyQ` (missing or zero number is falsy),
  `truthyN` (missing or zero count is falsy).
* The external `geopy.distance.geodesic` call is a black-box
  collaborator; definitions that use it take a distance function
  `dist : ℚ → ℚ → ℚ → ℚ → ℚ` (lat1 lon1 lat2 lon2 ↦ meters) as a
  parameter.  Concrete evaluations instantiate it with a local
  equirectangular model at the centre latitude (whose cosine is
  likewise a rational parameter, matching the planner's own
  `math.cos(math.radians(center_lat))`): `wgsDist` with the true
  WGS-84 arc lengths per degree where boundary decisions are at stake
  (the planner count), and the nominal `eqrDist` where the choice of
  constants cannot affect the result (kilometre-scale margins or paths
  that never reach the comparison).
* Network requests are oracles passed in as arguments
  (`Except Unit SerpResponse` for a fallible request); control-flow
  facts such as "the fallback was invoked" are exposed as explicit
  Boolean fields of the result.
-/

/-- Python truthiness of an optional string (`None` and `""` are falsy). -/
def truthyS (o : Option String) : Bool :=
  match o with
  | none => false
  | some s => !(s == "")

/-- Python truthiness of an optional number (`None` and `0.0` are falsy). -/
def truthyQ (o : Option ℚ) : Bool :=
  match o with
  | none => false
  | some x => decide (x ≠ 0)

/-- Python truthiness of an optional count (`None` and `0` are falsy). -/
def truthyN (o : Option Nat) : Bool :=
  match o with
  | none => false
  | some n => decide (n ≠ 0)

/-- An optional string collapsed to a plain string, missing becoming empty:
the combination `d.get(key, '')` / `d.get(key) or _` used throughout. -/
def strD : Option String → String
  | none => ""
  | some s => s

/-- Python `a or b` on strings (left operand kept when truthy). -/
def orS (a b : String) : String :=
  if a == "" then b else a

/-- Occurrence of `pat` as a contiguous run inside a character list. -/
def substrAux (pat : List Char) : List Char → Bool
  | [] => pat.isEmpty
  | c :: tail => pat.isPrefixOf (c :: tail) || substrAux pat tail

/-- Python `pat in s` substring test. -/
def strContains (s pat : String) : Bool :=
  substrAux pat.data s.data

/-- The generic branch-qualifier substrings checked by `score_place`
(`支店` branch, `本店` main store, `店` store). -/
def branchWords : List String :=
  ["支店", "本店", "店"]

/-- The `gps_coordinates` sub-dict of a SerpAPI place record. -/
structure Gps where
  latitude : Option ℚ
  longitude : Option ℚ
deriving DecidableEq

/-- One SerpAPI `local_results` place record, with every alias key the
source consults (`電話` is `denwa`, `住所` is `jusho`). -/
structure Place where
  title : Option String
  phone : Option String
  formatted_phone_number : Option String
  denwa : Option String
  address : Option String
  jusho : Option String
  rating : Option ℚ
  reviews : Option Nat
  gps_coordinates : Option Gps
deriving DecidableEq

/-- A SerpAPI maps-search response: `none` models a response dict with no
`local_results` key (or a falsy response). -/
structure SerpResponse where
  local_results : Option (List Place)
deriving DecidableEq

/-- Model of `radius_to_zoom_level` from app.py: inclusive thresholds
500/1000/2000/5000/10000/20000 m mapping to zoom 16..11, else 10. -/
def radius_to_zoom_level (radius_meters : ℚ) : Nat :=
  if radius_meters ≤ 500 then 16
  else if radius_meters ≤ 1000 then 15
  else if radius_meters ≤ 2000 then 14
  else if radius_meters ≤ 5000 then 13
  else if radius_meters ≤ 10000 then 12
  else if radius_meters ≤ 20000 then 11
  else 10

/-- One coverage-planner sample point (`{'lat', 'lon', 'zoom'}`). -/
structure SearchPoint where
  lat : ℚ
  lon : ℚ
  zoom : Nat
deriving DecidableEq

/-- The lattice index range `range(-grid_size, grid_size + 1)` of the
coverage planner. -/
def plannerIdxs (grid_size : Nat) : List ℤ :=
  (List.range (2 * grid_size + 1)).map (fun k => (k : ℤ) - (grid_size : ℤ))

/-- One lattice candidate of the coverage planner: skip the centre cell
`(0, 0)`, offset the centre by `i`/`j` grid steps (the source's
`grid_spacing = radius_meters * 0.4`, `lat_degree_per_meter = 1/111000`
and `lon_degree_per_meter = 1/(111000 * cosLat)` are inlined), and keep
the point iff its `dist` from the centre is at most
`radius_meters * 1.2`. -/
def plannerCandidate (dist : ℚ → ℚ → ℚ → ℚ → ℚ) (cosLat : ℚ)
    (center_lat center_lon radius_meters : ℚ) (i j : ℤ) : Option SearchPoint :=
  if i = 0 ∧ j = 0 then none
  else
    let new_lat := center_lat + (i : ℚ) * (radius_meters * (2 / 5)) * (1 / 111000)
    let new_lon := center_lon + (j : ℚ) * (radius_meters * (2 / 5)) * (1 / (111000 * cosLat))
    if dist center_lat center_lon new_lat new_lon ≤ radius_meters * (6 / 5) then
      some ⟨new_lat, new_lon, radius_to_zoom_level radius_meters⟩
    else none

/-- Model of `generate_search_points` from app.py.  `dist` stands for the external
`geodesic(..).meters` call and `cosLat` for the value of
`math.cos(math.radians(center_lat))`.  The centre is appended first,
then a row-major square lattice walk (`i` outer, `j` inner, centre cell
excluded) keeps the points within `1.2 * radius_meters` of the centre;
`grid_size = int(radius_meters * 2 / grid_spacing) + 1` (the `int`
truncation is `Int.toNat ∘ floor`, the quotient being positive). -/
def generate_search_points (dist : ℚ → ℚ → ℚ → ℚ → ℚ) (cosLat : ℚ)
    (center_lat center_lon radius_meters : ℚ) : List SearchPoint :=
  let grid_size : Nat :=
    (⌊radius_meters * 2 / (radius_meters * (2 / 5))⌋).toNat + 1
  ⟨center_lat, center_lon, radius_to_zoom_level radius_meters⟩ ::
    (plannerIdxs grid_size).foldr
      (fun i acc =>
        (plannerIdxs grid_size).filterMap
          (fun j => plannerCandidate dist cosLat center_lat center_lon radius_meters i j)
        ++ acc) []

/-- Floor square root of a nonnegative rational,
`⌊√q⌋`-style: `Nat.sqrt (num · den) / den`. -/
def ratSqrtFloor (q : ℚ) : ℚ :=
  (Nat.sqrt (q.num.toNat * q.den) : ℚ) / (q.den : ℚ)

/-- Squared equirectangular distance in metres between two lat/lon pairs,
using the same 111000 m/degree constant and centre-latitude cosine the
planner itself uses. -/
def eqrDistSq (cosLat la1 lo1 la2 lo2 : ℚ) : ℚ :=
  ((la2 - la1) * 111000) ^ 2 + ((lo2 - lo1) * 111000 * cosLat) ^ 2

/-- Nominal spherical stand-in for `geodesic(..).meters`:
equirectangular distance built from `eqrDistSq`.  Used only where the
choice of distance constants cannot affect the result (paths that never
evaluate the distance, or comparisons with kilometre-scale margins);
the boundary-sensitive planner count uses `wgsDist` instead. -/
def eqrDist (cosLat la1 lo1 la2 lo2 : ℚ) : ℚ :=
  ratSqrtFloor (eqrDistSq cosLat la1 lo1 la2 lo2)

/-- Squared WGS-84 local equirectangular distance in metres: near 35.7°
latitude one degree of latitude measures ≈110953 m (meridian arc) and
one degree of longitude ≈111446·cosφ m, unlike the nominal
111000 m/degree the planner itself uses for its metre→degree
conversion.  The asymmetry makes the planner's east-west boundary
cells overshoot the 1.2-radius cut. -/
def wgsDistSq (cosLat la1 lo1 la2 lo2 : ℚ) : ℚ :=
  ((la2 - la1) * 110953) ^ 2 + ((lo2 - lo1) * 111446 * cosLat) ^ 2

/-- Concrete stand-in for the program's `geodesic(..).meters` call:
floor square root of `wgsDistSq`.  Over the sub-kilometre offsets of
the Tokyo scenario this local model agrees with the WGS-84 geodesic to
well under 0.1 m, while every keep/drop comparison below has a margin
of at least 0.25 m. -/
def wgsDist (cosLat la1 lo1 la2 lo2 : ℚ) : ℚ :=
  ratSqrtFloor (wgsDistSq cosLat la1 lo1 la2 lo2)

/-- Rational approximation of `math.cos(math.radians(35.6762))` ≈ 0.8123,
the centre-latitude cosine for the Tokyo scenario.  The planner's kept
lattice is insensitive to this value because the longitude grid step is
proportional to its reciprocal. -/
def cosTokyo : ℚ := 8123 / 10000

/-- Tokyo scenario centre latitude 35.6762. -/
def tokyoLat : ℚ := 178381 / 5000

/-- Tokyo scenario centre longitude 139.6503. -/
def tokyoLon : ℚ := 1396503 / 10000

/-- The deduplication identity key of the page-merge loop:
`(p.get('title', ''), p.get('address', ''))` — the raw title/address
pair, missing fields as empty strings. -/
def placeKey (p : Place) : String × String :=
  (strD p.title, strD p.address)

/-- The page-merge deduplication step of `tab_normal`: walk the page's
records, appending a record to the aggregate only when its `placeKey` is
not already present (first-seen record kept unchanged). -/
def mergePlaces (all_places page_results : List Place) : List Place :=
  page_results.foldl
    (fun acc place =>
      if acc.any (fun q => placeKey q = placeKey place) then acc
      else acc ++ [place])
    all_places

/-- The per-point pagination loop (`while page < max_pages`).  `next k`
models the `search.get_next(); search.get_dict()` pair for the k-th
fetch of this point; its failure is caught (`except: break`) and ends
only this loop.  A page stops the loop when the response lacks
`local_results`, the list is empty, or the page has fewer than 20
records. -/
def pointPages (next : Nat → Except Unit SerpResponse) :
    Nat → SerpResponse → Nat → List Place → List Place
  | 0, _, _, acc => acc
  | budget + 1, results, fetchIdx, acc =>
    match results.local_results with
    | none => acc
    | some [] => acc
    | some page_results =>
      let acc' := mergePlaces acc page_results
      if page_results.length < 20 then acc'
      else
        match next fetchIdx with
        | .error _ => acc'
        | .ok r => pointPages next budget r (fetchIdx + 1) acc'

/-- One search point's dispatch: the initial request
(`GoogleSearch(params); search.get_dict()`) sits outside the inner
`try`, so its failure propagates (is fatal); on success the pagination
loop runs with a budget of `max_pages` pages. -/
def searchPoint (fetch : Nat → Except Unit SerpResponse) (max_pages : Nat)
    (acc : List Place) : Except Unit (List Place) :=
  match fetch 0 with
  | .error e => .error e
  | .ok r => .ok (pointPages fetch max_pages r 1 acc)

/-- The multi-point dispatch loop of the `tab_normal` search block:
points in order, each via `searchPoint` (max 6 pages); after a point
completes, dispatch stops early once the aggregate reaches
`max_results * 2`.  An `Except.error` outcome models the exception
reaching the outer `except` handler: the search fails and nothing is
returned. -/
def dispatchPoints (fetch : Nat → Nat → Except Unit SerpResponse)
    (max_results : Nat) : List Nat → List Place → Except Unit (List Place)
  | [], acc => .ok acc
  | p :: rest, acc =>
    match searchPoint (fetch p) 6 acc with
    | .error e => .error e
    | .ok acc' =>
      if max_results * 2 ≤ acc'.length then .ok acc'
      else dispatchPoints fetch max_results rest acc'

/-- Model of `score_place` from app.py: +50 when `phone` or
`formatted_phone_number` is truthy, +20 for `address`, +10 for
`rating`, +10 for `reviews`, −5 when the title contains a branch word.
Note the `電話` alias consulted by phone extraction is NOT checked
here. -/
def score_place (place : Place) : ℤ :=
  (if truthyS place.phone || truthyS place.formatted_phone_number then 50 else 0)
    + (if truthyS place.address then 20 else 0)
    + (if truthyQ place.rating then 10 else 0)
    + (if truthyN place.reviews then 10 else 0)
    - (if branchWords.any (fun w => strContains (strD place.title) w) then 5 else 0)

/-- Candidate selection of `search_store_by_name`: with more than one
candidate, a stable descending sort by `score_place` followed by taking
the head, i.e. the earliest candidate attaining the maximal score;
with one candidate, that candidate. -/
def select_place : List Place → Option Place
  | [] => none
  | p :: rest =>
    some (rest.foldl (fun best q =>
      if score_place best < score_place q then q else best) p)

/-- Phone extraction with alias fallback:
`place.get('phone') or place.get('formatted_phone_number') or place.get('電話', '')`. -/
def resolvePhone (place : Place) : String :=
  orS (strD place.phone) (orS (strD place.formatted_phone_number) (strD place.denwa))

/-- Address extraction with alias fallback:
`place.get('address') or place.get('住所', '')`. -/
def resolveAddress (place : Place) : String :=
  orS (strD place.address) (strD place.jusho)

/-- Model of `calculate_confidence` from app.py, over the fields of the result
dict it is applied to: phone and address are strings (truthy = nonempty)
and the coordinates are optional numbers (truthy = present and
nonzero, Python float truthiness). -/
def calculate_confidence (phone address : String) (lat lon : Option ℚ) : String :=
  if phone ≠ "" ∧ address ≠ "" ∧ (truthyQ lat && truthyQ lon) = true then "Very High"
  else if phone ≠ "" ∧ address ≠ "" then "High"
  else if phone ≠ "" then "Mid"
  else "Low"

/-- The result dict of `search_store_by_name` (keys romanized:
`tenpomei` = 店舗名, `denwabango` = 電話番号, `jusho` = 住所,
`ido`/`keido` = 緯度/経度, `hyoka` = 評価 with `none` for the empty
string, `reviewCount` = レビュー数, `shinraido` = 信頼度). -/
structure StoreResult where
  success : Bool
  error : Option String
  tenpomei : String
  denwabango : String
  jusho : String
  ido : Option ℚ
  keido : Option ℚ
  hyoka : Option ℚ
  reviewCount : Option Nat
  shinraido : String
deriving DecidableEq

/-- The all-empty failure result shared by the no-API-key, not-found
and exception paths of `search_store_by_name`. -/
def emptyFail (msg : String) : StoreResult :=
  { success := false, error := some msg, tenpomei := "", denwabango := "",
    jusho := "", ido := none, keido := none, hyoka := none,
    reviewCount := none, shinraido := "Low" }

/-- A `search_store_by_name` outcome instrumented with which network
paths the control flow reached: `calledMaps` is true when the primary
maps request was issued, `calledOrganic` when the organic-search
fallback was invoked. -/
structure ResolveOutcome where
  result : StoreResult
  calledMaps : Bool
  calledOrganic : Bool
deriving DecidableEq

/-- Model of `search_store_by_name` from app.py.  `primary` is the outcome of the
maps request (`Except.error` models a raised transport exception, which
the surrounding `try` turns into the error result, skipping the
fallback); `organicPhone` is the phone string produced by
`search_phone_from_organic` (that helper swallows its own errors and
returns `""` when no snippet matches the phone pattern).  With a falsy
API key the function returns immediately without any request.  The
organic fallback runs only when the primary response carries no
(nonempty) `local_results`; when candidates exist, the best-scored one
is returned even if it has no phone number. -/
def search_store_by_name (store_name : String) (apiKey : Option String)
    (primary : Except Unit SerpResponse) (organicPhone : String) : ResolveOutcome :=
  if !truthyS apiKey then
    ⟨emptyFail "APIキーが設定されていません", false, false⟩
  else
    match primary with
    | .error _ => ⟨emptyFail "エラー", true, false⟩
    | .ok results =>
      match results.local_results with
      | some (p0 :: ps) =>
        let place := (select_place (p0 :: ps)).getD p0
        let phone := resolvePhone place
        let address := resolveAddress place
        let lat := place.gps_coordinates.bind Gps.latitude
        let lon := place.gps_coordinates.bind Gps.longitude
        ⟨{ success := true, error := none, tenpomei := strD place.title,
           denwabango := phone, jusho := address, ido := lat, keido := lon,
           hyoka := place.rating, reviewCount := place.reviews,
           shinraido := calculate_confidence phone address lat lon },
         true, false⟩
      | _ =>
        if organicPhone == "" then
          ⟨emptyFail "店舗が見つかりませんでした", true, true⟩
        else
          ⟨{ success := true, error := none, tenpomei := store_name,
             denwabango := organicPhone, jusho := "", ido := none,
             keido := none, hyoka := none, reviewCount := none,
             shinraido := "Mid" }, true, true⟩

/-- Coordinate resolution of the `tab_normal` radius-filter loop: native
`gps_coordinates` first; when latitude or longitude is missing, one
geocode of the extracted address (when nonempty); a successful geocode
overwrites both coordinates, a failed or skipped one leaves the partial
native values in place. -/
def resolvePlaceCoords (geocode : String → Option (ℚ × ℚ)) (place : Place) :
    Option ℚ × Option ℚ :=
  let lat0 := place.gps_coordinates.bind Gps.latitude
  let lon0 := place.gps_coordinates.bind Gps.longitude
  if lat0 = none ∨ lon0 = none then
    let address := resolveAddress place
    if address == "" then (lat0, lon0)
    else
      match geocode address with
      | some (la, lo) => (some la, some lo)
      | none => (lat0, lon0)
  else (lat0, lon0)

/-- The per-record keep decision of the `tab_normal` radius filter: when
both coordinates were resolved, keep iff the distance does not exceed
the radius (`if distance > radius_meters: continue`); when the
coordinates could not be determined, the record falls through the check
and is KEPT. -/
def radiusKeep (dist : ℚ → ℚ → ℚ → ℚ → ℚ) (center_lat center_lon radius_meters : ℚ)
    (geocode : String → Option (ℚ × ℚ)) (place : Place) : Bool :=
  match resolvePlaceCoords geocode place with
  | (some la, some lo) => !(radius_meters < dist center_lat center_lon la lo)
  | _ => true

/-- One output row of the CSV tab (keys romanized as in `StoreResult`;
`yago` = 屋号（入力値）, `kyori` = 距離（m） with `none` for the empty
string; the code stores the distance as a formatted string, modelled
here by the number itself). -/
structure CsvRow where
  yago : String
  tenpomei : String
  denwabango : String
  jusho : String
  ido : Option ℚ
  keido : Option ℚ
  hyoka : Option ℚ
  reviewCount : Option Nat
  shinraido : String
  error : String
  kyori : Option ℚ
deriving DecidableEq

/-- The `row_result` dict built from one `search_store_by_name` result
in the CSV tab (before the radius post-check). -/
def buildCsvRow (store_name : String) (result : StoreResult) : CsvRow :=
  { yago := store_name, tenpomei := result.tenpomei,
    denwabango := result.denwabango, jusho := result.jusho,
    ido := result.ido, keido := result.keido, hyoka := result.hyoka,
    reviewCount := result.reviewCount, shinraido := result.shinraido,
    error := if result.success then "" else strD result.error,
    kyori := none }

/-- The per-row radius post-check of the CSV tab: when the radius option
and both centre coordinates are truthy and the result carries truthy
coordinates, compute the distance, record it, and on `distance >
radius` clear ONLY the resolved name, phone and address and set the
error message `半径{r}mを超えています`; otherwise record an empty
distance. -/
def radiusPostCheck (dist : ℚ → ℚ → ℚ → ℚ → ℚ) (use_radius : Bool)
    (radius_meters : Option Nat) (center_lat center_lon : Option ℚ)
    (result : StoreResult) (row : CsvRow) : CsvRow :=
  if use_radius && truthyN radius_meters
      && truthyQ center_lat && truthyQ center_lon then
    if truthyQ result.ido && truthyQ result.keido then
      let r : Nat := radius_meters.getD 0
      let d := dist (center_lat.getD 0) (center_lon.getD 0)
        (result.ido.getD 0) (result.keido.getD 0)
      if (r : ℚ) < d then
        { row with
          kyori := some d,
          tenpomei := "",
          denwabango := "",
          jusho := "",
          error := "半径" ++ toString r ++ "mを超えています" }
      else { row with kyori := some d }
    else { row with kyori := none }
  else { row with kyori := none }

/-- A place record with no coordinates and no address: its distance from
any centre cannot be determined. -/
def noCoordsPlace : Place :=
  { title := some "Cafe X", phone := some "03-1111-2222",
    formatted_phone_number := none, denwa := none, address := none,
    jusho := none, rating := none, reviews := none, gps_coordinates := none }

/-- A record titled `Cafe A` at `1 Main St`. -/
def caseA : Place :=
  { title := some "Cafe A", phone := none, formatted_phone_number := none,
    denwa := none, address := some "1 Main St", jusho := none,
    rating := none, reviews := none, gps_coordinates := none }

/-- The same entity differing from `caseA` only in letter case and
surrounding whitespace of name and address. -/
def caseA2 : Place :=
  { title := some "cafe a", phone := none, formatted_phone_number := none,
    denwa := none, address := some " 1 Main St ", jusho := none,
    rating := none, reviews := none, gps_coordinates := none }

/-- A second record with exactly the same raw title/address as `caseA`
(arriving from another sample point, with extra fields). -/
def caseA3 : Place :=
  { title := some "Cafe A", phone := some "03-2222-3333",
    formatted_phone_number := none, denwa := none,
    address := some "1 Main St", jusho := none, rating := some 4,
    reviews := some 12, gps_coordinates := none }

/-- A candidate that carries a phone number only under the localized
`電話` alias key. -/
def denwaOnlyPlace : Place :=
  { title := some "Cafe Y", phone := none, formatted_phone_number := none,
    denwa := some "03-1234-5678", address := none, jusho := none,
    rating := none, reviews := none, gps_coordinates := none }

/-- The spec's scoring scenario candidate `{phone, address, rating}`. -/
def scored80 : Place :=
  { title := none, phone := some "x", formatted_phone_number := none,
    denwa := none, address := some "y", jusho := none, rating := some 4,
    reviews := none, gps_coordinates := none }

/-- The spec's scoring scenario candidate `{phone}`. -/
def scored50 : Place :=
  { title := none, phone := some "x", formatted_phone_number := none,
    denwa := none, address := none, jusho := none, rating := none,
    reviews := none, gps_coordinates := none }

/-- A primary-search candidate with address but no phone under any
alias. -/
def noPhonePlace : Place :=
  { title := some "Cafe Z", phone := none, formatted_phone_number := none,
    denwa := none, address := some "2 Side St", jusho := none,
    rating := some 4, reviews := some 10, gps_coordinates := none }

/-- A single aggregated record used in the dispatch counterexample. -/
def pageOnePlace : Place :=
  { title := some "First Hit", phone := some "03-0000-0001",
    formatted_phone_number := none, denwa := none,
    address := some "3 Back St", jusho := none, rating := none,
    reviews := none, gps_coordinates := none }

/-- A dispatch oracle: point 0's initial request succeeds with one
record, every other request (including point 1's initial request)
raises a transport error. -/
def failSecondFetch : Nat → Nat → Except Unit SerpResponse :=
  fun p k => if p = 0 ∧ k = 0 then .ok ⟨some [pageOnePlace]⟩ else .error ()

/-- A resolver result whose entity lies about 111 km north of the
requested centre, with every extracted field populated. -/
def farResult : StoreResult :=
  { success := true, error := none, tenpomei := "Far Store",
    denwabango := "03-7777-8888", jusho := "Far Address", ido := some 36,
    keido := some 139, hyoka := some 4, reviewCount := some 25,
    shinraido := "Very High" }

/-- Claim C9: `radius_to_zoom_level` is monotonically non-increasing —
for all positive radii `r1 < r2`, `zoomLevel(r1) ≥ zoomLevel(r2)`. -/
theorem c9_zoom_monotone (r1 r2 : ℚ) (_hpos : 0 < r1) (hlt : r1 < r2) :
    radius_to_zoom_level r2 ≤ radius_to_zoom_level r1 := by
  unfold radius_to_zoom_level
  split_ifs <;> (try simp only [not_le] at *) <;> linarith

/-- Witness for C9 at the concrete radii 300 < 1500. -/
theorem c9_zoom_monotone_witness :
    radius_to_zoom_level 1500 ≤ radius_to_zoom_level 300 :=
  c9_zoom_monotone 300 1500 (by norm_num) (by norm_num)

/-- Claim C1 (counterexample): a record whose distance cannot be
determined (no native coordinates, no address, so no geocode is even
attempted) is RETAINED by the radius filter, contradicting the claim
that such records are excluded. -/
theorem c1_radius_filter_counterexample :
    radiusKeep (eqrDist cosTokyo) 35 139 1000 (fun _ => none) noCoordsPlace = true := by
  rfl

/-- Claim C1 (amended): the radius filter keeps a record iff, whenever
its coordinates could be resolved (natively or via geocoding), the
distance from the centre is at most the radius; a record whose distance
cannot be determined falls through the check and is retained
(fail-open), not excluded. -/
theorem c1_radius_filter_amended (dist : ℚ → ℚ → ℚ → ℚ → ℚ)
    (clat clon r : ℚ) (geocode : String → Option (ℚ × ℚ)) (place : Place) :
    radiusKeep dist clat clon r geocode place = true ↔
      ∀ la lo, resolvePlaceCoords geocode place = (some la, some lo) →
        dist clat clon la lo ≤ r := by
  unfold radiusKeep
  rcases h : resolvePlaceCoords geocode place with ⟨la?, lo?⟩
  cases la? <;> cases lo? <;>
    simp [Prod.mk.injEq, not_lt]

/-- Claim C3 (counterexample): two records differing only in letter case
and surrounding whitespace of name/address do NOT merge — both are
retained by the page-merge deduplication. -/
theorem c3_dedup_counterexample :
    mergePlaces [] [caseA, caseA2] = [caseA, caseA2] := by
  rfl

/-- Claim C3 (amended): the identity key is the raw `(title, address)`
pair (missing fields as empty strings) with no case normalization or
whitespace trimming; a record whose raw key equals an already-seen one
is dropped, the first-seen record kept unchanged. -/
theorem c3_dedup_amended (acc : List Place) (p q : Place)
    (h : placeKey p = placeKey q) :
    mergePlaces acc [p, q] = mergePlaces acc [p] := by
  have hq : ((if acc.any (fun x => placeKey x = placeKey p) then acc
      else acc ++ [p]).any (fun x => placeKey x = placeKey q)) = true := by
    by_cases hc : acc.any (fun x => placeKey x = placeKey p) = true
    · rw [if_pos hc]
      simpa [h] using hc
    · rw [if_neg hc]
      simp [List.any_append, h]
  simp only [mergePlaces, List.foldl_cons, List.foldl_nil]
  rw [if_pos hq]

/-- Witness for the amended C3 at two records sharing the exact raw key
`("Cafe A", "1 Main St")` (the spec's scenario of the same entity
arriving from two different sample points). -/
theorem c3_dedup_amended_witness :
    mergePlaces [] [caseA, caseA3] = mergePlaces [] [caseA] :=
  c3_dedup_amended [] caseA caseA3 (by rfl)

/-- Claim C7 (counterexample): a candidate whose phone number sits only
under the localized `電話` alias — which the extraction path
`resolvePhone` does recognise — scores 0, not the +50 the claim's "any
known alias field" requires. -/
theorem c7_score_counterexample :
    resolvePhone denwaOnlyPlace = "03-1234-5678" ∧ score_place denwaOnlyPlace = 0 := by
  constructor <;> rfl

/-- Claim C7 (amended): the score is the stated sum, except that the
+50 phone bonus checks only the `phone` and `formatted_phone_number`
fields (not the localized `電話` alias used by extraction); the
candidate `{phone, address, rating}` scores 80, `{phone}` scores 50,
and the higher-scored candidate is selected. -/
theorem c7_score_amended :
    (∀ place : Place,
      score_place place =
        (if truthyS place.phone || truthyS place.formatted_phone_number then 50 else 0)
          + (if truthyS place.address then 20 else 0)
          + (if truthyQ place.rating then 10 else 0)
          + (if truthyN place.reviews then 10 else 0)
          - (if branchWords.any (fun w => strContains (strD place.title) w) then 5 else 0))
    ∧ score_place scored80 = 80
    ∧ score_place scored50 = 50
    ∧ select_place [scored80, scored50] = some scored80 := by
  refine ⟨fun place => rfl, by rfl, by rfl, by rfl⟩

/-- Claim C10: with an absent API key (`None` or the empty string),
`search_store_by_name` returns the failure record — `success = false`,
an error message set, every data field empty or `None`, confidence
`Low` — and issues no network request (neither the maps search nor the
organic fallback is reached). -/
theorem c10_no_api_key (store_name : String) (apiKey : Option String)
    (primary : Except Unit SerpResponse) (organicPhone : String)
    (h : apiKey = none ∨ apiKey = some "") :
    search_store_by_name store_name apiKey primary organicPhone =
      ⟨emptyFail "APIキーが設定されていません", false, false⟩ := by
  rcases h with h | h <;> subst h <;> rfl

/-- Witness for C10 at a concrete name and a `None` API key. -/
theorem c10_no_api_key_witness :
    search_store_by_name "Unique Cafe XYZ" none (Except.ok ⟨none⟩) "" =
      ⟨emptyFail "APIキーが設定されていません", false, false⟩ :=
  c10_no_api_key "Unique Cafe XYZ" none (Except.ok ⟨none⟩) "" (Or.inl rfl)

/-- Unfolding of one merge step. -/
theorem mergePlaces_cons (acc : List Place) (x : Place) (xs : List Place) :
    mergePlaces acc (x :: xs) =
      mergePlaces (if acc.any (fun q => placeKey q = placeKey x) then acc
        else acc ++ [x]) xs :=
  rfl

/-- The merge step only appends: the incoming page never mutates or
removes already-aggregated records. -/
theorem mergePlaces_extends (l acc : List Place) :
    ∃ t, mergePlaces acc l = acc ++ t := by
  induction l generalizing acc with
  | nil => exact ⟨[], by simp [mergePlaces]⟩
  | cons x xs ih =>
    rw [mergePlaces_cons]
    by_cases hc : acc.any (fun q => placeKey q = placeKey x) = true
    · rw [if_pos hc]
      exact ih acc
    · rw [if_neg hc]
      obtain ⟨t, ht⟩ := ih (acc ++ [x])
      exact ⟨x :: t, by simp [ht]⟩

/-- The pagination loop only appends to the aggregate, whatever the
responses and however it terminates (budget, short page, missing or
empty result list, or a caught pagination error). -/
theorem pointPages_extends (next : Nat → Except Unit SerpResponse) (b : Nat)
    (r : SerpResponse) (k : Nat) (acc : List Place) :
    ∃ t, pointPages next b r k acc = acc ++ t := by
  induction b generalizing r k acc with
  | zero => exact ⟨[], by simp [pointPages]⟩
  | succ b ih =>
    rcases r with ⟨lr⟩
    rcases lr with _ | ⟨_ | ⟨x, xs⟩⟩
    · exact ⟨[], by simp [pointPages]⟩
    · exact ⟨[], by simp [pointPages]⟩
    · obtain ⟨t1, ht1⟩ := mergePlaces_extends (x :: xs) acc
      by_cases hlen : (x :: xs).length < 20
      · refine ⟨t1, ?_⟩
        simp only [pointPages]
        rw [if_pos hlen]
        exact ht1
      · cases hn : next k with
        | error e =>
          refine ⟨t1, ?_⟩
          simp only [pointPages]
          rw [if_neg hlen]
          simp only [hn]
          exact ht1
        | ok r2 =>
          obtain ⟨t2, ht2⟩ := ih r2 (k + 1) (mergePlaces acc (x :: xs))
          refine ⟨t1 ++ t2, ?_⟩
          simp only [pointPages]
          rw [if_neg hlen]
          simp only [hn]
          rw [ht2, ht1, List.append_assoc]

/-- Claim C2 (counterexample): with two points where the first returns
one record and the SECOND point's initial request raises a transport
error, the whole search fails (`Except.error` reaches the outer
handler) and the already-aggregated record is NOT returned —
contradicting the claim that any single request error only ends that
point's pagination loop. -/
theorem c2_dispatch_counterexample :
    dispatchPoints failSecondFetch 100 [0, 1] [] = Except.error () := by
  rfl

/-- Claim C2 (amended): only a pagination-advance error (a `get_next`
fetch, caught by the inner `try`) is local to its point's loop; a
point's INITIAL request sits outside that `try`, so its failure aborts
the whole search.  When every dispatched point's initial request
succeeds, the search returns normally and all previously aggregated
records are retained (the result extends the starting aggregate),
whatever errors later pagination fetches raise. -/
theorem c2_dispatch_amended (fetch : Nat → Nat → Except Unit SerpResponse)
    (m : Nat) (points : List Nat) (acc : List Place)
    (h : ∀ p ∈ points, ∃ r, fetch p 0 = Except.ok r) :
    ∃ res, dispatchPoints fetch m points acc = Except.ok res ∧
      ∃ t, res = acc ++ t := by
  induction points generalizing acc with
  | nil => exact ⟨acc, rfl, [], by simp⟩
  | cons p rest ih =>
    obtain ⟨r, hr⟩ := h p (by simp)
    obtain ⟨t1, ht1⟩ := pointPages_extends (fetch p) 6 r 1 acc
    have hsp : searchPoint (fetch p) 6 acc = Except.ok (acc ++ t1) := by
      simp [searchPoint, hr, ht1]
    by_cases hb : m * 2 ≤ (acc ++ t1).length
    · refine ⟨acc ++ t1, ?_, t1, rfl⟩
      simp only [dispatchPoints, hsp]
      rw [if_pos hb]
    · obtain ⟨res, hres, t2, ht2⟩ := ih (acc ++ t1)
        (fun q hq => h q (by simp [hq]))
      refine ⟨res, ?_, t1 ++ t2, by simp [ht2]⟩
      simp only [dispatchPoints, hsp]
      rw [if_neg hb]
      exact hres

/-- Witness for the amended C2: a single point whose requests all
succeed, starting from a nonempty aggregate. -/
theorem c2_dispatch_amended_witness :
    ∃ res, dispatchPoints (fun _ _ => Except.ok ⟨some []⟩) 100 [0] [pageOnePlace]
        = Except.ok res ∧ ∃ t, res = [pageOnePlace] ++ t :=
  c2_dispatch_amended (fun _ _ => Except.ok ⟨some []⟩) 100 [0] [pageOnePlace]
    (by intro p hp; exact ⟨⟨some []⟩, rfl⟩)

/-- Claim C5 (counterexample): the primary search returns one candidate
carrying no phone number under any alias, yet the organic fallback is
NOT invoked — the candidate is returned with an empty phone —
contradicting "invokes the fallback exactly when the primary search
yields no phone number". -/
theorem c5_fallback_counterexample :
    (search_store_by_name "Cafe Z" (some "key")
        (Except.ok ⟨some [noPhonePlace]⟩) "03-9999-0000").calledOrganic = false
    ∧ (search_store_by_name "Cafe Z" (some "key")
        (Except.ok ⟨some [noPhonePlace]⟩) "03-9999-0000").result.denwabango = "" := by
  constructor <;> rfl

/-- Claim C5 (amended): with a truthy API key, the organic fallback is
invoked exactly when the primary request succeeds with zero candidates
(no `local_results` key or an empty list); a raised primary error skips
the fallback, and candidates without phone numbers do not trigger it. -/
theorem c5_fallback_amended (store_name : String) (apiKey : Option String)
    (primary : Except Unit SerpResponse) (organicPhone : String)
    (h : truthyS apiKey = true) :
    (search_store_by_name store_name apiKey primary organicPhone).calledOrganic = true ↔
      (primary = Except.ok ⟨none⟩ ∨ primary = Except.ok ⟨some []⟩) := by
  unfold search_store_by_name
  rcases primary with e | ⟨lr⟩
  · simp [h]
  · rcases lr with _ | ⟨_ | ⟨x, xs⟩⟩ <;> split_ifs <;> simp_all [h]

/-- Witness for the amended C5: a truthy key and a primary response
with no `local_results` key does invoke the fallback. -/
theorem c5_fallback_amended_witness :
    (search_store_by_name "Unique Cafe XYZ" (some "key")
        (Except.ok ⟨none⟩) "").calledOrganic = true :=
  (c5_fallback_amended "Unique Cafe XYZ" (some "key") (Except.ok ⟨none⟩) ""
    (by rfl)).mpr (Or.inl rfl)

/-- Claim C6: the confidence tier is a pure function of field presence
(Python truthiness of the result's phone, address, and both
coordinates): `Very High` iff phone ∧ address ∧ coordinates, `High` iff
phone ∧ address ∧ ¬coordinates, `Mid` iff phone ∧ ¬address, `Low` iff
no phone. -/
theorem c6_confidence_tiers (phone address : String) (lat lon : Option ℚ) :
    (calculate_confidence phone address lat lon = "Very High" ↔
      phone ≠ "" ∧ address ≠ "" ∧ (truthyQ lat && truthyQ lon) = true)
    ∧ (calculate_confidence phone address lat lon = "High" ↔
      phone ≠ "" ∧ address ≠ "" ∧ ¬((truthyQ lat && truthyQ lon) = true))
    ∧ (calculate_confidence phone address lat lon = "Mid" ↔
      phone ≠ "" ∧ address = "")
    ∧ (calculate_confidence phone address lat lon = "Low" ↔ phone = "") := by
  unfold calculate_confidence
  by_cases hp : phone = "" <;> by_cases ha : address = "" <;>
    by_cases hc : (truthyQ lat && truthyQ lon) = true <;>
      simp [hp, ha, hc]

/-- Square-root evaluation used by the far-store distance: 111000². -/
theorem sqrt12321000000 : Nat.sqrt 12321000000 = 111000 :=
  (Nat.eq_sqrt.mpr (by constructor <;> norm_num)).symm

/-- The far store at latitude 36 is 111000 m (one degree of latitude)
from the centre (35, 139) under the equirectangular model. -/
theorem eqrDist_far : eqrDist cosTokyo 35 139 36 139 = 111000 := by
  norm_num [eqrDist, eqrDistSq, ratSqrtFloor, cosTokyo, Rat.num_ofNat, Rat.den_ofNat,
    show ((12321000000 : ℤ).toNat = 12321000000) from rfl, sqrt12321000000]

/-- Claim C8 (counterexample): a resolved entity 111 km from the
requested centre (radius 1000 m) gets the over-radius error and cleared
name/phone/address, but its coordinates, rating, review count and
confidence tier are NOT cleared — contradicting "all of its extracted
data fields cleared/reset". -/
theorem c8_radius_postcheck_counterexample :
    radiusPostCheck (eqrDist cosTokyo) true (some 1000) (some 35) (some 139)
        farResult (buildCsvRow "Far Query" farResult) =
      { yago := "Far Query", tenpomei := "", denwabango := "", jusho := "",
        ido := some 36, keido := some 139, hyoka := some 4,
        reviewCount := some 25, shinraido := "Very High",
        error := "半径1000mを超えています", kyori := some 111000 } := by
  simp only [radiusPostCheck, buildCsvRow, farResult, truthyN, truthyQ, Option.getD,
    eqrDist_far]
  norm_num
  rfl

/-- Claim C8 (amended): when the caller supplied a bounding radius and
truthy centre coordinates and the resolved entity has truthy
coordinates whose distance exceeds the radius, the row gets
`エラー = 半径{r}mを超えています` (the Japanese form of "exceeds
requested radius") with ONLY the resolved name, phone and address
cleared; the coordinates, rating, review count and confidence tier are
left as extracted, the distance is recorded, and the resolution is not
retried. -/
theorem c8_radius_postcheck_amended (dist : ℚ → ℚ → ℚ → ℚ → ℚ)
    (radius : Nat) (clat clon la lo : ℚ) (result : StoreResult) (row : CsvRow)
    (hrad : radius ≠ 0) (hclat : clat ≠ 0) (hclon : clon ≠ 0)
    (hla : result.ido = some la) (hla0 : la ≠ 0)
    (hlo : result.keido = some lo) (hlo0 : lo ≠ 0)
    (hfar : (radius : ℚ) < dist clat clon la lo) :
    radiusPostCheck dist true (some radius) (some clat) (some clon) result row =
      { row with
        kyori := some (dist clat clon la lo),
        tenpomei := "",
        denwabango := "",
        jusho := "",
        error := "半径" ++ toString radius ++ "mを超えています" } := by
  simp [radiusPostCheck, truthyN, truthyQ, hla, hlo, hrad, hclat, hclon,
    hla0, hlo0, hfar]

/-- Witness for the amended C8 at the far store with a constant 2000 m
distance oracle and a 1000 m radius. -/
theorem c8_radius_postcheck_amended_witness :
    radiusPostCheck (fun _ _ _ _ => 2000) true (some 1000) (some 35) (some 139)
        farResult (buildCsvRow "Far Query" farResult) =
      { buildCsvRow "Far Query" farResult with
        kyori := some 2000,
        tenpomei := "",
        denwabango := "",
        jusho := "",
        error := "半径" ++ toString 1000 ++ "mを超えています" } :=
  c8_radius_postcheck_amended (fun _ _ _ _ => 2000) 1000 35 139 36 139 farResult
    (buildCsvRow "Far Query" farResult) (by decide) (by decide) (by decide) rfl
    (by decide) rfl (by decide) (by decide)

/-- The floor square root is at most `b` once the radicand is at most
`b²`. -/
theorem ratSqrtFloor_le_of_le_sq (q : ℚ) (b : ℕ) (h : q ≤ (b : ℚ) ^ 2) :
    ratSqrtFloor q ≤ (b : ℚ) := by
  unfold ratSqrtFloor
  have hden : (0 : ℚ) < (q.den : ℚ) := by exact_mod_cast q.den_pos
  rw [div_le_iff₀ hden]
  have hnum : (q.num : ℚ) = q * (q.den : ℚ) := (div_eq_iff hden.ne').mp (Rat.num_div_den q)
  have h1 : (q.num : ℚ) ≤ ((b : ℚ) ^ 2) * (q.den : ℚ) := by
    rw [hnum]
    exact mul_le_mul_of_nonneg_right h hden.le
  have h1' : q.num ≤ ((b ^ 2 * q.den : ℕ) : ℤ) := by exact_mod_cast h1
  have h2 : q.num.toNat ≤ b ^ 2 * q.den := by
    have h3 := Int.toNat_le_toNat h1'
    rwa [Int.toNat_natCast] at h3
  have hm : q.num.toNat * q.den ≤ (b * q.den) * (b * q.den) := by
    calc q.num.toNat * q.den ≤ (b ^ 2 * q.den) * q.den := Nat.mul_le_mul_right _ h2
      _ = (b * q.den) * (b * q.den) := by ring
  have hs : Nat.sqrt (q.num.toNat * q.den) ≤ b * q.den := by
    calc Nat.sqrt (q.num.toNat * q.den) ≤ Nat.sqrt ((b * q.den) * (b * q.den)) :=
          Nat.sqrt_le_sqrt hm
      _ = b * q.den := Nat.sqrt_eq _
  exact_mod_cast hs

/-- The floor square root exceeds `b` once the radicand reaches
`(b+1)²`. -/
theorem lt_ratSqrtFloor_of_sq_le (q : ℚ) (b : ℕ) (h : ((b : ℚ) + 1) ^ 2 ≤ q) :
    (b : ℚ) < ratSqrtFloor q := by
  unfold ratSqrtFloor
  have hden : (0 : ℚ) < (q.den : ℚ) := by exact_mod_cast q.den_pos
  rw [lt_div_iff₀ hden]
  have hnum : (q.num : ℚ) = q * (q.den : ℚ) := (div_eq_iff hden.ne').mp (Rat.num_div_den q)
  have h1 : (((b : ℚ) + 1) ^ 2) * (q.den : ℚ) ≤ (q.num : ℚ) := by
    rw [hnum]
    exact mul_le_mul_of_nonneg_right h hden.le
  have h1' : (((b + 1) ^ 2 * q.den : ℕ) : ℤ) ≤ q.num := by exact_mod_cast h1
  have h2 : (b + 1) ^ 2 * q.den ≤ q.num.toNat := by
    have h3 := Int.toNat_le_toNat h1'
    rwa [Int.toNat_natCast] at h3
  have hm : ((b + 1) * q.den) * ((b + 1) * q.den) ≤ q.num.toNat * q.den := by
    calc ((b + 1) * q.den) * ((b + 1) * q.den) = ((b + 1) ^ 2 * q.den) * q.den := by ring
      _ ≤ q.num.toNat * q.den := Nat.mul_le_mul_right _ h2
  have hs : (b + 1) * q.den ≤ Nat.sqrt (q.num.toNat * q.den) := Nat.le_sqrt.mpr hm
  have hlt : b * q.den < (b + 1) * q.den :=
    (Nat.mul_lt_mul_right q.den_pos).mpr (Nat.lt_succ_self b)
  exact_mod_cast lt_of_lt_of_le hlt hs

/-- No integer lattice cell lands strictly between the 600 m and 601 m
squared-distance bounds of the Tokyo scenario: whenever the WGS-84
numerator `110953²·i² + 111446²·j²` exceeds `(600·555)²` it already
reaches `(601·555)²`, because `i²` and `j²` are perfect squares (no
square lies strictly between 4 and 9) and the coefficients close the
remaining windows. -/
theorem wgs_gap (i j : ℤ)
    (hN : 110889000000 < 12310568209 * (i * i) + 12420210916 * (j * j)) :
    111258938025 ≤ 12310568209 * (i * i) + 12420210916 * (j * j) := by
  have hA : 5 ≤ i * i → 9 ≤ i * i := by
    intro h5
    rcases le_or_lt 3 i with h3 | h3
    · nlinarith
    · rcases le_or_lt i (-3) with h3' | h3'
      · nlinarith
      · interval_cases i <;> omega
  have hB : 5 ≤ j * j → 9 ≤ j * j := by
    intro h5
    rcases le_or_lt 3 j with h3 | h3
    · nlinarith
    · rcases le_or_lt j (-3) with h3' | h3'
      · nlinarith
      · interval_cases j <;> omega
  have ha : 0 ≤ i * i := mul_self_nonneg i
  have hb : 0 ≤ j * j := mul_self_nonneg j
  rcases le_or_lt 5 (j * j) with h5 | h5
  · have h9 := hB h5
    linarith
  · rcases le_or_lt 5 (i * i) with h5' | h5'
    · have h9' := hA h5'
      rcases (by omega : i * i ≤ 9 ∨ 10 ≤ i * i) with h10 | h10
      · rcases (by omega : j * j = 0 ∨ 1 ≤ j * j) with hb0 | hb1
        · linarith
        · linarith
      · linarith
    · linarith

/-- The squared WGS-84 model distance from the Tokyo centre to the
`(i, j)` lattice cell is `(110953²·i² + 111446²·j²)/555²`: the
centre-latitude cosine cancels in the longitude term because the
planner's grid step is proportional to its reciprocal. -/
theorem tokyo_wgs_distSq (i j : ℤ) :
    wgsDistSq cosTokyo tokyoLat tokyoLon
        (tokyoLat + (i : ℚ) * (500 * (2 / 5)) * (1 / 111000))
        (tokyoLon + (j : ℚ) * (500 * (2 / 5)) * (1 / (111000 * cosTokyo)))
      = ((12310568209 * (i * i) + 12420210916 * (j * j) : ℤ) : ℚ) / 308025 := by
  unfold wgsDistSq cosTokyo tokyoLat tokyoLon
  push_cast
  field_simp
  ring

/-- The planner's keep condition at the Tokyo centre with radius 500 m
under the WGS-84 model: a lattice cell is kept iff
`110953²·i² + 111446²·j² ≤ (600·555)²`.  This keeps the cells with
`i² + j² ≤ 9` EXCEPT `(0, ±3)`, whose true distance ≈602.4 m exceeds
the 600 m cut. -/
theorem tokyo_wgs_condition (i j : ℤ) :
    (wgsDist cosTokyo tokyoLat tokyoLon
        (tokyoLat + (i : ℚ) * (500 * (2 / 5)) * (1 / 111000))
        (tokyoLon + (j : ℚ) * (500 * (2 / 5)) * (1 / (111000 * cosTokyo)))
      ≤ 500 * (6 / 5))
    ↔ 12310568209 * (i * i) + 12420210916 * (j * j) ≤ 110889000000 := by
  unfold wgsDist
  rw [tokyo_wgs_distSq]
  constructor
  · intro h
    by_contra hN
    push_neg at hN
    have hgap := wgs_gap i j hN
    have hq : (((600 : ℕ) : ℚ) + 1) ^ 2 ≤
        ((12310568209 * (i * i) + 12420210916 * (j * j) : ℤ) : ℚ) / 308025 := by
      rw [le_div_iff₀ (by norm_num : (0 : ℚ) < 308025)]
      rw [show ((((600 : ℕ) : ℚ) + 1) ^ 2 * 308025) = ((111258938025 : ℤ) : ℚ) by norm_num]
      exact_mod_cast hgap
    have hgt := lt_ratSqrtFloor_of_sq_le _ 600 hq
    norm_num at h hgt
    linarith
  · intro hN
    have hq : ((12310568209 * (i * i) + 12420210916 * (j * j) : ℤ) : ℚ) / 308025
        ≤ ((600 : ℕ) : ℚ) ^ 2 := by
      rw [div_le_iff₀ (by norm_num : (0 : ℚ) < 308025)]
      rw [show (((600 : ℕ) : ℚ) ^ 2 * 308025) = ((110889000000 : ℤ) : ℚ) by norm_num]
      exact_mod_cast hN
    have hle := ratSqrtFloor_le_of_le_sq _ 600 hq
    norm_num at hle ⊢
    linarith

/-- Length of a fold that concatenates per-row lists. -/
theorem length_foldr_append {α β : Type} (l : List α) (h : α → List β) :
    (l.foldr (fun i acc => h i ++ acc) []).length
      = (l.map (fun i => (h i).length)).sum := by
  induction l with
  | nil => rfl
  | cons x xs ih => simp [ih]

/-- A `filterMap` has the same length as the `filter` by the
`isSome`-discipline of its function. -/
theorem length_filterMap_eq_filter {α β : Type} (f : α → Option β) (g : α → Bool)
    (hfg : ∀ a, (f a).isSome = g a) (l : List α) :
    (l.filterMap f).length = (l.filter g).length := by
  induction l with
  | nil => rfl
  | cons x xs ih =>
    have hx := hfg x
    cases hfa : f x with
    | none =>
      rw [hfa] at hx
      simp [List.filterMap_cons, List.filter_cons, hfa, ← hx, ih]
    | some b =>
      rw [hfa] at hx
      simp [List.filterMap_cons, List.filter_cons, hfa, ← hx, ih]

/-- Membership in a fold of concatenated per-row lists comes from one
row. -/
theorem mem_foldr_append {α β : Type} (l : List α) (h : α → List β) (p : β)
    (hp : p ∈ l.foldr (fun i acc => h i ++ acc) []) : ∃ i ∈ l, p ∈ h i := by
  induction l with
  | nil => simp at hp
  | cons x xs ih =>
    rcases List.mem_append.mp hp with h1 | h2
    · exact ⟨x, by simp, h1⟩
    · obtain ⟨i, hi, hpi⟩ := ih h2
      exact ⟨i, by simp [hi], hpi⟩

/-- Every point produced by the coverage planner is the centre itself or
a lattice point whose `dist` from the centre is at most
`1.2 * radius_meters` — whatever distance function is used. -/
theorem generate_search_points_mem (dist : ℚ → ℚ → ℚ → ℚ → ℚ)
    (cosLat clat clon r : ℚ) (p : SearchPoint)
    (hp : p ∈ generate_search_points dist cosLat clat clon r) :
    p = ⟨clat, clon, radius_to_zoom_level r⟩ ∨
      dist clat clon p.lat p.lon ≤ r * (6 / 5) := by
  unfold generate_search_points at hp
  rcases List.mem_cons.mp hp with h | h
  · exact Or.inl h
  · right
    obtain ⟨i, _, hpi⟩ := mem_foldr_append _ _ p h
    obtain ⟨j, _, hcand⟩ := List.mem_filterMap.mp hpi
    simp only [plannerCandidate] at hcand
    by_cases h0 : i = 0 ∧ j = 0
    · rw [if_pos h0] at hcand
      exact absurd hcand (by simp)
    · rw [if_neg h0] at hcand
      split_ifs at hcand with hc
      obtain rfl := Option.some_inj.mp hcand
      exact hc

/-- The Tokyo scenario planner output has exactly 27 points: the centre
plus the 26 lattice cells the WGS-84 distance keeps — all cells with
`i² + j² ≤ 9` except `(0, ±3)`, which lie ≈602.4 m east/west of the
centre because the planner's metre→degree conversion underestimates
the length of a degree of longitude. -/
theorem planner_tokyo_length :
    (generate_search_points (wgsDist cosTokyo) cosTokyo tokyoLat tokyoLon 500).length
      = 27 := by
  have hpt : ∀ i j : ℤ,
      (plannerCandidate (wgsDist cosTokyo) cosTokyo tokyoLat tokyoLon 500 i j).isSome
        = (!decide (i = 0 ∧ j = 0)
            && decide (12310568209 * (i * i) + 12420210916 * (j * j) ≤ 110889000000)) := by
    intro i j
    simp only [plannerCandidate]
    by_cases h0 : i = 0 ∧ j = 0
    · simp [h0]
    · rw [if_neg h0]
      by_cases hc : 12310568209 * (i * i) + 12420210916 * (j * j) ≤ 110889000000
      · rw [if_pos ((tokyo_wgs_condition i j).mpr hc)]
        simp [h0, hc]
      · rw [if_neg (fun hcond => hc ((tokyo_wgs_condition i j).mp hcond))]
        simp [h0, hc]
  have hflt : ∀ i : ℤ,
      ((plannerIdxs 6).filterMap
          (fun j => plannerCandidate (wgsDist cosTokyo) cosTokyo tokyoLat tokyoLon 500 i j)).length
        = ((plannerIdxs 6).filter
            (fun j => !decide (i = 0 ∧ j = 0)
              && decide (12310568209 * (i * i) + 12420210916 * (j * j)
                ≤ 110889000000))).length :=
    fun i => length_filterMap_eq_filter _ _ (fun j => hpt i j) _
  have hgs : ((⌊(500 : ℚ) * 2 / (500 * (2 / 5))⌋).toNat + 1) = 6 := by
    norm_num
    decide
  have hunfold : generate_search_points (wgsDist cosTokyo) cosTokyo tokyoLat tokyoLon 500
      = ⟨tokyoLat, tokyoLon, radius_to_zoom_level 500⟩ ::
        (plannerIdxs 6).foldr
          (fun i acc => (plannerIdxs 6).filterMap
            (fun j => plannerCandidate (wgsDist cosTokyo) cosTokyo tokyoLat tokyoLon 500 i j)
            ++ acc) [] := by
    show ⟨tokyoLat, tokyoLon, radius_to_zoom_level 500⟩ ::
        (plannerIdxs ((⌊(500 : ℚ) * 2 / (500 * (2 / 5))⌋).toNat + 1)).foldr
          (fun i acc =>
            (plannerIdxs ((⌊(500 : ℚ) * 2 / (500 * (2 / 5))⌋).toNat + 1)).filterMap
              (fun j => plannerCandidate (wgsDist cosTokyo) cosTokyo tokyoLat tokyoLon 500 i j)
            ++ acc) [] = _
    rw [hgs]
  rw [hunfold, List.length_cons, length_foldr_append]
  simp only [hflt]
  decide

/-- The WGS-84 model distance from the centre to itself is zero. -/
theorem wgsDist_self (cosLat la lo : ℚ) : wgsDist cosLat la lo la lo = 0 := by
  norm_num [wgsDist, wgsDistSq, ratSqrtFloor, Rat.num_ofNat, Rat.den_ofNat]

/-- Claim C4 (counterexample): `plan({35.6762, 139.6503}, 500)` does NOT
return a single-digit point set — it has 27 points. -/
theorem c4_planner_counterexample :
    ¬((generate_search_points (wgsDist cosTokyo) cosTokyo tokyoLat tokyoLon 500).length
        < 10) := by
  rw [planner_tokyo_length]
  decide

/-- Claim C4 (amended): `plan({35.6762, 139.6503}, 500)` returns 27
sample points — the centre plus the 26 lattice cells within 600 m under
the WGS-84 geodesic, the `(0, ±3)` cells at ≈602.4 m being excluded —
not a single-digit set; every returned point lies within 600 m
(= 1.2 × 500 m) of the centre. -/
theorem c4_planner_amended :
    (generate_search_points (wgsDist cosTokyo) cosTokyo tokyoLat tokyoLon 500).length = 27
    ∧ ∀ p ∈ generate_search_points (wgsDist cosTokyo) cosTokyo tokyoLat tokyoLon 500,
        wgsDist cosTokyo tokyoLat tokyoLon p.lat p.lon ≤ 600 := by
  constructor
  · exact planner_tokyo_length
  · intro p hp
    rcases generate_search_points_mem _ _ _ _ _ p hp with h | h
    · subst h
      rw [show (⟨tokyoLat, tokyoLon, radius_to_zoom_level 500⟩ : SearchPoint).lat
          = tokyoLat from rfl,
        show (⟨tokyoLat, tokyoLon, radius_to_zoom_level 500⟩ : SearchPoint).lon
          = tokyoLon from rfl,
        wgsDist_self]
      norm_num
    · linarith [h]

/-- Witness for the amended C4 at the centre point of the returned
list. -/
theorem c4_planner_amended_witness :
    wgsDist cosTokyo tokyoLat tokyoLon
      (⟨tokyoLat, tokyoLon, radius_to_zoom_level 500⟩ : SearchPoint).lat
      (⟨tokyoLat, tokyoLon, radius_to_zoom_level 500⟩ : SearchPoint).lon ≤ 600 :=
  c4_planner_amended.2 ⟨tokyoLat, tokyoLon, radius_to_zoom_level 500⟩
    (List.mem_cons_self _ _)

/-- Witness for C6: a record with phone, address and nonzero coordinates
is `Very High`. -/
theorem c6_confidence_tiers_witness :
    calculate_confidence "03-1234-5678" "1 Main St" (some 1) (some 2) = "Very High" :=
  (c6_confidence_tiers "03-1234-5678" "1 Main St" (some 1) (some 2)).1.mpr
    (by refine ⟨by decide, by decide, by decide⟩)
